import Mathlib

/-!
Verification development for the storefront's Dialogue Resolution & Relevance
Engine (src/src/components/Assistant.tsx, src/src/lib/gemini.ts, and the cart
reducer in src/unnamed/part_000).  The TypeScript functions are shallowly
embedded as executable Lean definitions; JavaScript strings are modelled as
`String`, `String.prototype.includes` as substring containment on character
lists, and React state updates as explicit state passing (a dispatch inside a
closure does not change the values the closure already captured, so every
snapshot read inside one turn sees the pre-turn state).  The two language-model
providers are modelled as oracle outcomes (`Except Unit String`) supplied to
the orchestrator, and the calls made to them are recorded in the result.
-/

set_option maxHeartbeats 1000000

namespace Luxe

/-- Characters of a string lowercased; models JavaScript `toLowerCase()`. -/
def lowerChars (s : String) : List Char := s.data.map Char.toLower

/-- All suffixes of a character list, longest first. -/
def suffixesOf : List Char → List (List Char)
  | [] => [[]]
  | c :: cs => (c :: cs) :: suffixesOf cs

/-- Substring containment on character lists; models `String.prototype.includes`. -/
def containsSub (hay pat : List Char) : Bool :=
  (suffixesOf hay).any (fun t => pat.isPrefixOf t)

/-- `qHas q pat` holds when the lowercased query contains `pat`;
models `lowerQuery.includes(pat)` for a lowercase pattern literal. -/
def qHas (q : String) (pat : String) : Bool :=
  containsSub (lowerChars q) pat.data

/-- Models `lowerQuery.startsWith(pat)`. -/
def startsWithChars (q : String) (pat : String) : Bool :=
  pat.data.isPrefixOf (lowerChars q)

/-- Splitting on the space character, keeping empty fragments;
models `String.prototype.split(' ')`. -/
def splitSpAux : List Char → List Char → List (List Char)
  | [], acc => [acc.reverse]
  | c :: rest, acc =>
    if c = ' ' then acc.reverse :: splitSpAux rest []
    else splitSpAux rest (c :: acc)

/-- `splitSp s` is the list of space-separated fragments of `s`. -/
def splitSp (s : List Char) : List (List Char) := splitSpAux s []

/-- Last `n` elements of a list; models `Array.prototype.slice(-n)` for `n > 0`. -/
def takeRight (n : Nat) (l : List α) : List α := l.drop (l.length - n)

/-- Deduplication keeping the first occurrence of each element, in order;
models `[...new Set(list)]`. -/
def dedupFirst (l : List String) : List String :=
  l.foldl (fun acc x => if x ∈ acc then acc else acc ++ [x]) []

/-- Catalog entry (src/src/types/index.ts `Product`), restricted to the fields
the engine reads; `image`, `rating`, `reviews` and `inStock` are never used by
the assistant logic. -/
structure Product where
  id : Nat
  name : String
  price : Nat
  category : String
  description : String
  features : List String
  badge : Option String
deriving Repr, DecidableEq

/-- Cart line (src/src/types/index.ts `CartItem`): a product with a quantity. -/
structure CartItem where
  product : Product
  quantity : Nat
deriving Repr, DecidableEq

/-- Session profile state of the Assistant component
(`userProfile` in src/src/components/Assistant.tsx). -/
structure UserProfile where
  searches : List String
  interests : List String
  priceMin : Nat
  priceMax : Nat
deriving Repr, DecidableEq

/-- Role of a conversation message (`Message.type` in Assistant.tsx). -/
inductive MsgType
  | user
  | assistant
  | error
deriving Repr, DecidableEq

/-- One conversation turn (`Message` in Assistant.tsx); the timestamp carries
no logic and is omitted. -/
structure Message where
  type : MsgType
  content : String
  products : Option (List Product)
  showProducts : Bool
deriving Repr, DecidableEq

/-- Cart reducer `ADD_ITEM` case (src/unnamed/part_000 `cartReducer`):
increment the quantity of an existing line with the same id, otherwise
append a new line with quantity 1. -/
def cartAdd (items : List CartItem) (p : Product) : List CartItem :=
  if items.any (fun it => it.product.id == p.id) then
    items.map (fun it =>
      if it.product.id == p.id then { it with quantity := it.quantity + 1 } else it)
  else items ++ [{ product := p, quantity := 1 }]

/-- Cart reducer `REMOVE_ITEM` case: drop every line with the given id. -/
def cartRemove (items : List CartItem) (pid : Nat) : List CartItem :=
  items.filter (fun it => it.product.id != pid)

/-- The products of the window whose lowercased name occurs in the lowercased
query (the name-mention filter opening `determineProductsFromContext`). -/
def nameMatches (q : String) (ps : List Product) : List Product :=
  ps.filter (fun p => containsSub (lowerChars q) (lowerChars p.name))

/-- Referent Resolver (`determineProductsFromContext`, Assistant.tsx lines
115–168): name mentions first, then ordinal keywords, then collective
keywords, then generic pronouns, else the empty list. -/
def determineProductsFromContext (q : String) (ps : List Product) : List Product :=
  let m := nameMatches q ps
  if !m.isEmpty then m
  else if qHas q "first" || qHas q "1st" then ps.take 1
  else if qHas q "second" || qHas q "2nd" then (ps.drop 1).take 1
  else if qHas q "third" || qHas q "3rd" then (ps.drop 2).take 1
  else if qHas q "last" then takeRight 1 ps
  else if qHas q "both" && decide (2 ≤ ps.length) then ps.take 2
  else if qHas q "all" then ps
  else if qHas q "it" || qHas q "this" || qHas q "that" then ps.take 1
  else []

/-- The add-phrase list of `parseCartAction`. -/
def addPhrases : List String :=
  ["add to cart", "add it", "add this", "add that", "buy it", "buy this",
   "purchase it", "purchase this", "get it", "get this", "i want it",
   "i want this", "i\x27ll take it", "i\x27ll take this", "add the first",
   "add the second", "add the third", "add both", "add all"]

/-- The remove-phrase list of `parseCartAction`. -/
def removePhrases : List String :=
  ["remove from cart", "remove it", "remove this", "delete it",
   "delete this", "take it out", "don\x27t want it"]

/-- True when the lowercased query contains some add phrase. -/
def isAddAction (q : String) : Bool := addPhrases.any (fun s => qHas q s)

/-- True when the lowercased query contains some remove phrase. -/
def isRemoveAction (q : String) : Bool := removePhrases.any (fun s => qHas q s)

/-- Classification outcome of `parseCartAction` (`'add' | 'remove' | null`). -/
inductive ActionKind
  | add
  | remove
  | none
deriving Repr, DecidableEq

/-- Result record of `parseCartAction`; in the `null` case the source carries
no product list, modelled as `[]`. -/
structure CartAction where
  action : ActionKind
  products : List Product
deriving Repr, DecidableEq

/-- Action Classifier (`parseCartAction`, Assistant.tsx lines 71–112):
the add check runs first, then the remove check, else no action. -/
def parseCartAction (lastSuggested : List Product) (q : String) : CartAction :=
  if isAddAction q then
    { action := ActionKind.add, products := determineProductsFromContext q lastSuggested }
  else if isRemoveAction q then
    { action := ActionKind.remove, products := determineProductsFromContext q lastSuggested }
  else { action := ActionKind.none, products := [] }

/-- Inquiry phrases of the product-seeking heuristic `isAskingForProducts`. -/
def productInquiries : List String :=
  ["do you have", "what", "any", "show me", "looking for", "need", "want",
   "sell", "available", "got", "find", "search", "recommend", "suggest"]

/-- Product-type nouns of the product-seeking heuristic. -/
def productTypes : List String :=
  ["book", "laptop", "phone", "shoe", "clothes", "electronics", "fashion",
   "home", "food", "coffee", "computer", "device", "sneaker", "bag"]

/-- Product-seeking heuristic (`isAskingForProducts`, Assistant.tsx lines
44–68): inquiry phrase co-occurring with a product-type noun, or a
question-shaped query containing a product-type noun. -/
def isAskingForProducts (q : String) : Bool :=
  let hasInquiry := productInquiries.any (fun s => qHas q s)
  let hasProductType := productTypes.any (fun s => qHas q s)
  let isQuestion := qHas q "?" || startsWithChars q "what" ||
                    startsWithChars q "do you" || startsWithChars q "can you"
  (hasInquiry && hasProductType) || (isQuestion && hasProductType)

/-- Category-pattern table of `findRelevantProducts`. -/
def patternsTable : List (String × List String) :=
  [("books", ["book", "books", "read", "programming", "design", "learning"]),
   ("electronics", ["phone", "laptop", "computer", "tech", "electronic",
                    "device", "mouse", "headphone"]),
   ("fashion", ["clothes", "clothing", "wear", "fashion", "shoe", "shoes",
                "sneaker", "coat", "bag", "handbag"]),
   ("home", ["home", "garden", "house", "decor", "lamp", "plant", "pot"]),
   ("food", ["coffee", "food", "drink", "beverage", "organic"])]

/-- Per-term field contributions of the scorer: name 30, category 25,
description 15, each matching feature 10. -/
def termFieldScore (p : Product) (term : List Char) : Nat :=
  (if containsSub (lowerChars p.name) term then 30 else 0) +
  (if containsSub (lowerChars p.category) term then 25 else 0) +
  (if containsSub (lowerChars p.description) term then 15 else 0) +
  (p.features.foldl (fun s f => s + (if containsSub (lowerChars f) term then 10 else 0)) 0)

/-- Category-pattern bonus: 35 per (group, keyword) with the keyword in the
query and the product's category equal to the group or its name or
description containing the keyword. -/
def patternScore (lq : List Char) (p : Product) : Nat :=
  patternsTable.foldl (fun s entry =>
    s + entry.2.foldl (fun s2 kw =>
      s2 + (if containsSub lq kw.data then
              (if (lowerChars p.category == entry.1.data) ||
                  containsSub (lowerChars p.name) kw.data ||
                  containsSub (lowerChars p.description) kw.data then 35 else 0)
            else 0)) 0) 0

/-- High-precision type cues: shoe/sneaker, laptop/computer, phone, 40 each. -/
def cueScore (lq : List Char) (p : Product) : Nat :=
  let ln := lowerChars p.name
  (if (containsSub lq "shoe".data || containsSub lq "sneaker".data) &&
      (containsSub ln "sneaker".data || containsSub ln "shoe".data) then 40 else 0) +
  (if (containsSub lq "laptop".data || containsSub lq "computer".data) &&
      (containsSub ln "macbook".data || containsSub ln "laptop".data) then 40 else 0) +
  (if containsSub lq "phone".data &&
      (containsSub ln "iphone".data || containsSub ln "phone".data) then 40 else 0)

/-- Flat bonus of 5 for a `Popular` or `Bestseller` badge. -/
def badgeScore (p : Product) : Nat :=
  if p.badge = some "Popular" ∨ p.badge = some "Bestseller" then 5 else 0

/-- Accumulated relevance score of one product against a query
(the score accumulation of `findRelevantProducts`, Assistant.tsx 262–312). -/
def scoreProduct (q : String) (p : Product) : Nat :=
  let lq := lowerChars q
  let terms := splitSp lq
  (terms.foldl (fun s t => s + termFieldScore p t) 0) +
  patternScore lq p + cueScore lq p + badgeScore p

/-- A product paired with its transient relevance score. -/
structure ScoredProduct where
  product : Product
  score : Nat
deriving Repr, DecidableEq

/-- Insertion of an element into a score-descending list, placed before the
first element of smaller-or-equal score; together with `sortByScoreDesc`
this models the (stable, per ECMAScript) `Array.prototype.sort` with
comparator `(a, b) => b.score - a.score`. -/
def insertDesc (x : ScoredProduct) : List ScoredProduct → List ScoredProduct
  | [] => [x]
  | y :: ys => if y.score ≤ x.score then x :: y :: ys else y :: insertDesc x ys

/-- Stable insertion sort by descending score. -/
def sortByScoreDesc : List ScoredProduct → List ScoredProduct
  | [] => []
  | x :: xs => insertDesc x (sortByScoreDesc xs)

/-- The threshold-filtered scored catalog, in catalog order
(the `.filter(p => p.score >= 25)` stage of `findRelevantProducts`). -/
def thresholdFiltered (catalog : List Product) (q : String) : List ScoredProduct :=
  (catalog.map (fun p => { product := p, score := scoreProduct q p })).filter
    (fun sp => decide (25 ≤ sp.score))

/-- Relevance Scorer (`findRelevantProducts`, Assistant.tsx lines 250–319):
score every catalog entry, keep scores ≥ 25, sort descending (stable), keep
the top 3.  The profile parameter is in scope in the source component but the
function body never reads it. -/
def findRelevantProducts (catalog : List Product) (_profile : UserProfile)
    (q : String) : List ScoredProduct :=
  (sortByScoreDesc (thresholdFiltered catalog q)).take 3

/-- Lines rendered for one message by `buildConversationContext`:
user and assistant turns only, assistant turns annotated with any attached
suggestion names. -/
def renderMsg (msg : Message) : List String :=
  match msg.type with
  | MsgType.user => ["User: " ++ msg.content]
  | MsgType.assistant =>
    ("Assistant: " ++ msg.content) ::
    (match msg.products with
     | some ps =>
       if !ps.isEmpty then
         ["[Suggested products: " ++ String.intercalate ", " (ps.map (fun p => p.name)) ++ "]"]
       else []
     | Option.none => [])
  | MsgType.error => []

/-- Context Builder (`buildConversationContext`, Assistant.tsx lines 171–194):
the last 6 messages rendered as lines, followed by a last-suggested-products
line when the window is non-empty, joined with newlines. -/
def buildConversationContext (messages : List Message)
    (lastSuggested : List Product) : String :=
  let recent := takeRight 6 messages
  let parts1 :=
    if !recent.isEmpty then "RECENT CONVERSATION:" :: (recent.map renderMsg).flatten
    else []
  let parts2 :=
    if !lastSuggested.isEmpty then
      parts1 ++ ["\nLAST SUGGESTED PRODUCTS: " ++
                 String.intercalate ", " (lastSuggested.map (fun p => p.name))]
    else parts1
  String.intercalate "\n" parts2

/-- The composed system prompt (`getSystemPrompt`, Assistant.tsx lines
197–247), with its sections kept structured instead of concatenated into one
string: the cart summary lines ("quantity x name"), the profile interests, the
last 5 recent searches, the conversation context block, and — exactly when the
show-products flag is set — the serialized catalog dump (which in the source
travels together with the few-shot example exchanges in the same branch). -/
structure SystemPrompt where
  cartLines : List String
  interests : List String
  recentSearches : List String
  context : String
  catalogDump : Option (List Product)
deriving Repr, DecidableEq

/-- Prompt Composer: builds the `SystemPrompt` from the cart snapshot, the
profile, the show-products flag and the context block. -/
def getSystemPrompt (catalog : List Product) (items : List CartItem)
    (profile : UserProfile) (showProducts : Bool) (context : String) : SystemPrompt :=
  { cartLines := items.map (fun it => toString it.quantity ++ "x " ++ it.product.name)
    interests := profile.interests
    recentSearches := takeRight 5 profile.searches
    context := context
    catalogDump := if showProducts then some catalog else Option.none }

/-- The fixed user-facing apology returned when both providers fail
(Assistant.tsx line 431). -/
def apologyText : String :=
  "I\x27m having trouble connecting right now. Please try again later."

/-- Session state of the Assistant component: conversation, referent window,
profile, and the cart snapshot held by the cart collaborator. -/
structure AssistantState where
  messages : List Message
  lastSuggestedProducts : List Product
  userProfile : UserProfile
  cartItems : List CartItem
deriving Repr, DecidableEq

/-- Outcome of one `generateResponse` run: the reply record returned to
`handleSend`, the updated session values, and a trace of the external calls
made (cart adds/removes in order, and the prompt handed to each provider,
`none` when that provider was not called). -/
structure GenOut where
  content : String
  products : List Product
  showProducts : Bool
  searches : List String
  lastSuggested : List Product
  cartItems : List CartItem
  addCalls : List Product
  removeCalls : List Nat
  primaryPrompt : Option (SystemPrompt × String)
  secondaryPrompt : Option (SystemPrompt × String)
deriving Repr, DecidableEq

/-- Dialogue Orchestrator per-turn core (`generateResponse`, Assistant.tsx
lines 321–436).  React reads inside the turn see the captured pre-turn state:
the cart count quoted in confirmation replies and the profile read by the
prompt composer are the pre-turn snapshots.  The provider outcomes are
supplied as oracles: `primary` is the Gemini call (src/src/lib/gemini.ts
`askGemini`), `secondary` the LangChain/Anthropic fallback chain. -/
def generateResponse (catalog : List Product) (st : AssistantState) (query : String)
    (primary secondary : Except Unit String) : GenOut :=
  let searches1 := takeRight 10 (st.userProfile.searches ++ [query])
  let context := buildConversationContext st.messages st.lastSuggestedProducts
  let ca := parseCartAction st.lastSuggestedProducts query
  if ca.action = ActionKind.add ∧ ca.products ≠ [] then
    { content := "Perfect! I\x27ve added " ++
        String.intercalate " and " (ca.products.map (fun p => p.name)) ++
        " to your cart. You now have " ++ toString st.cartItems.length ++
        " item(s) in your cart."
      products := []
      showProducts := false
      searches := searches1
      lastSuggested := st.lastSuggestedProducts
      cartItems := ca.products.foldl cartAdd st.cartItems
      addCalls := ca.products
      removeCalls := []
      primaryPrompt := Option.none
      secondaryPrompt := Option.none }
  else if ca.action = ActionKind.remove ∧ ca.products ≠ [] then
    { content := "I\x27ve removed " ++
        String.intercalate " and " (ca.products.map (fun p => p.name)) ++
        " from your cart. You now have " ++ toString st.cartItems.length ++
        " item(s) in your cart."
      products := []
      showProducts := false
      searches := searches1
      lastSuggested := st.lastSuggestedProducts
      cartItems := ca.products.foldl (fun its p => cartRemove its p.id) st.cartItems
      addCalls := []
      removeCalls := ca.products.map (fun p => p.id)
      primaryPrompt := Option.none
      secondaryPrompt := Option.none }
  else
    let asking := isAskingForProducts query
    let sys := getSystemPrompt catalog st.cartItems st.userProfile asking context
    let relevant :=
      if asking then (findRelevantProducts catalog st.userProfile query).map (fun sp => sp.product)
      else []
    let show1 := asking && !relevant.isEmpty
    match primary with
    | Except.ok text =>
      { content := text
        products := relevant
        showProducts := show1
        searches := searches1
        lastSuggested := if show1 then relevant else st.lastSuggestedProducts
        cartItems := st.cartItems
        addCalls := []
        removeCalls := []
        primaryPrompt := some (sys, query)
        secondaryPrompt := Option.none }
    | Except.error _ =>
      match secondary with
      | Except.ok text =>
        { content := text
          products := relevant
          showProducts := show1
          searches := searches1
          lastSuggested := if show1 then relevant else st.lastSuggestedProducts
          cartItems := st.cartItems
          addCalls := []
          removeCalls := []
          primaryPrompt := some (sys, query)
          secondaryPrompt := some (sys, query) }
      | Except.error _ =>
        { content := apologyText
          products := []
          showProducts := false
          searches := searches1
          lastSuggested := st.lastSuggestedProducts
          cartItems := st.cartItems
          addCalls := []
          removeCalls := []
          primaryPrompt := some (sys, query)
          secondaryPrompt := some (sys, query) }

/-- True when the turn takes the deterministic cart-mutation short circuit:
the Action Classifier fired and the Referent Resolver returned at least one
product. -/
def takesCartPath (st : AssistantState) (q : String) : Bool :=
  decide ((parseCartAction st.lastSuggestedProducts q).action ≠ ActionKind.none) &&
  !(parseCartAction st.lastSuggestedProducts q).products.isEmpty

/-- One full turn (`handleSend`, Assistant.tsx lines 463–506): append the user
turn, run `generateResponse`, append the assistant turn, and fold the shown
products' categories into the bounded interests window. -/
def handleSend (catalog : List Product) (st : AssistantState) (query : String)
    (primary secondary : Except Unit String) : AssistantState :=
  let g := generateResponse catalog st query primary secondary
  let userMsg : Message :=
    { type := MsgType.user, content := query, products := Option.none, showProducts := false }
  let botMsg : Message :=
    { type := MsgType.assistant, content := g.content
      products := if g.showProducts then some g.products else Option.none
      showProducts := g.showProducts }
  let interests1 :=
    if g.showProducts && !g.products.isEmpty then
      takeRight 5 (dedupFirst (st.userProfile.interests ++
        dedupFirst (g.products.map (fun p => p.category))))
    else st.userProfile.interests
  { messages := st.messages ++ [userMsg, botMsg]
    lastSuggestedProducts := g.lastSuggested
    userProfile :=
      { searches := g.searches, interests := interests1
        priceMin := st.userProfile.priceMin, priceMax := st.userProfile.priceMax }
    cartItems := g.cartItems }

/-! ### Concrete fixtures used by the claim theorems -/

/-- A minimal catalog entry named Alpha. -/
def prodA : Product := ⟨1, "Alpha", 10, "books", "", [], Option.none⟩

/-- A minimal catalog entry named Beta. -/
def prodB : Product := ⟨2, "Beta", 20, "books", "", [], Option.none⟩

/-- A minimal catalog entry named Gamma. -/
def prodC : Product := ⟨3, "Gamma", 30, "books", "", [], Option.none⟩

/-- The Running Sneakers product of the spec's end-to-end example. -/
def sneakerProd : Product := ⟨7, "Running Sneakers", 129, "fashion", "", [], Option.none⟩

/-- A book product matching the catalog's book example. -/
def bookX : Product := ⟨1, "The Art of Programming", 45, "books", "", [], Option.none⟩

/-- A second book product. -/
def bookY : Product := ⟨2, "Modern Web Design", 39, "books", "", [], Option.none⟩

/-- A two-book catalog. -/
def bookCatalog : List Product := [bookX, bookY]

/-- The initial profile of the component (`useState` initializer). -/
def emptyProfile : UserProfile := ⟨[], [], 0, 1000⟩

/-- A fresh session: no messages, no referent window, initial profile, empty cart. -/
def emptyState : AssistantState := ⟨[], [], emptyProfile, []⟩

/-! ### Helper lemmas -/

/-- `slice(k, k+1)` is the optional element at index `k`. -/
theorem drop_take_one (l : List α) (k : Nat) : (l.drop k).take 1 = (l[k]?).toList := by
  induction l generalizing k with
  | nil => cases k <;> rfl
  | cons a t ih =>
    cases k with
    | zero => simp
    | succ n => simpa using ih n

/-- `takeRight` never exceeds its bound. -/
theorem takeRight_length_le (n : Nat) (l : List α) : (takeRight n l).length ≤ n := by
  unfold takeRight
  rw [List.length_drop]
  omega

/-- `takeRight n l` is a suffix of `l`: the oldest entries are the ones dropped. -/
theorem takeRight_suffix (n : Nat) (l : List α) : takeRight n l <:+ l :=
  ⟨l.take (l.length - n), List.take_append_drop _ _⟩

/-- `slice(-1)` is the optional last element. -/
theorem takeRight_one_eq_getLast (l : List α) : takeRight 1 l = l.getLast?.toList := by
  induction l with
  | nil => rfl
  | cons a t ih =>
    cases t with
    | nil => rfl
    | cons b u =>
      rw [List.getLast?_cons_cons, ← ih]
      show List.drop ((a :: b :: u).length - 1) (a :: b :: u) = _
      simp only [List.length_cons, Nat.add_sub_cancel, List.drop_succ_cons]
      rfl

/-- The fold underlying `dedupFirst` preserves freedom from duplicates. -/
theorem dedupFirst_fold_nodup (l : List String) (acc : List String) (h : acc.Nodup) :
    (l.foldl (fun acc x => if x ∈ acc then acc else acc ++ [x]) acc).Nodup := by
  induction l generalizing acc with
  | nil => exact h
  | cons x xs ih =>
    refine ih _ ?_
    by_cases hx : x ∈ acc
    · simpa [hx] using h
    · simp [hx, List.nodup_append, h]

/-- `dedupFirst` yields a duplicate-free list. -/
theorem dedupFirst_nodup (l : List String) : (dedupFirst l).Nodup :=
  dedupFirst_fold_nodup l [] List.nodup_nil

/-- Membership after an insertion comes from the inserted element or the list. -/
theorem mem_of_mem_insertDesc {x z : ScoredProduct} {l : List ScoredProduct}
    (h : z ∈ insertDesc x l) : z = x ∨ z ∈ l := by
  induction l with
  | nil =>
    simp only [insertDesc, List.mem_singleton] at h
    exact Or.inl h
  | cons y ys ih =>
    by_cases hc : y.score ≤ x.score
    · simp only [insertDesc, if_pos hc, List.mem_cons] at h
      rcases h with h | h | h
      · exact Or.inl h
      · exact Or.inr (by simp [h])
      · exact Or.inr (by simp [h])
    · simp only [insertDesc, if_neg hc, List.mem_cons] at h
      rcases h with h | h
      · exact Or.inr (by simp [h])
      · rcases ih h with h1 | h1
        · exact Or.inl h1
        · exact Or.inr (by simp [h1])

/-- Every element of the sorted list occurs in the input. -/
theorem mem_of_mem_sortByScoreDesc {z : ScoredProduct} {l : List ScoredProduct}
    (h : z ∈ sortByScoreDesc l) : z ∈ l := by
  induction l with
  | nil =>
    simp [sortByScoreDesc] at h
  | cons x xs ih =>
    unfold sortByScoreDesc at h
    rcases mem_of_mem_insertDesc h with h1 | h1
    · simp [h1]
    · simp [ih h1]

/-- Insertion preserves the score-descending ordering. -/
theorem pairwise_insertDesc {x : ScoredProduct} {l : List ScoredProduct}
    (h : l.Pairwise (fun a b => b.score ≤ a.score)) :
    (insertDesc x l).Pairwise (fun a b => b.score ≤ a.score) := by
  induction l with
  | nil => simp [insertDesc]
  | cons y ys ih =>
    rcases List.pairwise_cons.mp h with ⟨hy, hys⟩
    by_cases hc : y.score ≤ x.score
    · simp only [insertDesc, if_pos hc]
      refine List.pairwise_cons.mpr ⟨?_, h⟩
      intro z hz
      rcases List.mem_cons.mp hz with h1 | h1
      · subst h1
        exact hc
      · exact Nat.le_trans (hy z h1) hc
    · simp only [insertDesc, if_neg hc]
      refine List.pairwise_cons.mpr ⟨?_, ih hys⟩
      intro z hz
      rcases mem_of_mem_insertDesc hz with h1 | h1
      · subst h1
        exact Nat.le_of_lt (Nat.lt_of_not_le hc)
      · exact hy z h1

/-- The sort produces a score-descending list. -/
theorem pairwise_sortByScoreDesc (l : List ScoredProduct) :
    (sortByScoreDesc l).Pairwise (fun a b => b.score ≤ a.score) := by
  induction l with
  | nil => simp [sortByScoreDesc]
  | cons x xs ih => exact pairwise_insertDesc ih

/-- Inserting an element of a different score leaves the score-`s` fibre alone. -/
theorem filter_insertDesc_of_ne {s : Nat} {x : ScoredProduct} (l : List ScoredProduct)
    (hx : x.score ≠ s) :
    (insertDesc x l).filter (fun sp => sp.score == s) =
      l.filter (fun sp => sp.score == s) := by
  induction l with
  | nil => simp [insertDesc, hx]
  | cons y ys ih =>
    by_cases hc : y.score ≤ x.score
    · simp [insertDesc, if_pos hc, List.filter_cons, hx]
    · simp only [insertDesc, if_neg hc, List.filter_cons]
      rw [ih]

/-- Inserting an element of score `s` prepends it to the score-`s` fibre:
the insertion point lies before every other element of the same score that
was already present, never after — this is the stability of the sort. -/
theorem filter_insertDesc_of_eq {s : Nat} {x : ScoredProduct} (l : List ScoredProduct)
    (hx : x.score = s) :
    (insertDesc x l).filter (fun sp => sp.score == s) =
      x :: l.filter (fun sp => sp.score == s) := by
  induction l with
  | nil => simp [insertDesc, hx]
  | cons y ys ih =>
    by_cases hc : y.score ≤ x.score
    · simp only [insertDesc, if_pos hc, List.filter_cons]
      simp [hx]
    · have hy : y.score ≠ s := by
        have : x.score < y.score := Nat.lt_of_not_le hc
        omega
      simp only [insertDesc, if_neg hc, List.filter_cons]
      rw [ih]
      simp [hy]

/-- Stability of the sort: each equal-score fibre of the output is exactly the
equal-score fibre of the input, in the input's order. -/
theorem filter_sortByScoreDesc (s : Nat) (l : List ScoredProduct) :
    (sortByScoreDesc l).filter (fun sp => sp.score == s) =
      l.filter (fun sp => sp.score == s) := by
  induction l with
  | nil => rfl
  | cons x xs ih =>
    unfold sortByScoreDesc
    by_cases hx : x.score = s
    · rw [filter_insertDesc_of_eq _ hx, ih, List.filter_cons]
      simp [hx]
    · rw [filter_insertDesc_of_ne _ hx, ih, List.filter_cons]
      simp [hx]

/-- Filtering a truncation yields a prefix of filtering the whole list. -/
theorem filter_take_prefix (p : α → Bool) (l : List α) (n : Nat) :
    (l.take n).filter p <+: l.filter p :=
  ⟨(l.drop n).filter p, by rw [← List.filter_append, List.take_append_drop]⟩

/-- None of the six positional keywords occurs in the lowercased query. -/
def noOrdinal (q : String) : Prop :=
  qHas q "first" = false ∧ qHas q "1st" = false ∧ qHas q "second" = false ∧
  qHas q "2nd" = false ∧ qHas q "third" = false ∧ qHas q "3rd" = false ∧
  qHas q "last" = false

/-! ### Claim theorems -/

/-- Claim C1: the Referent Resolver satisfies the spec's concrete equations —
`resolve("add the second one", [A,B,C]) = [B]`,
`resolve("add both", [A,B]) = [A,B]`, `resolve("add all", [A,B,C]) = [A,B,C]`,
`resolve("remove it", []) = []` — and, on queries with no name match and no
earlier-precedence keyword, an ordinal keyword returns the single product at
that position (the final element for "last") or the empty sequence when that
position is absent, and "both" returns the first two elements only when at
least two exist. -/
theorem c1_referent_resolver_equations :
    (determineProductsFromContext "add the second one" [prodA, prodB, prodC] = [prodB]) ∧
    (determineProductsFromContext "add both" [prodA, prodB] = [prodA, prodB]) ∧
    (determineProductsFromContext "add all" [prodA, prodB, prodC] = [prodA, prodB, prodC]) ∧
    (determineProductsFromContext "remove it" [] = []) ∧
    (∀ (q : String) (ps : List Product), nameMatches q ps = [] →
      (qHas q "first" || qHas q "1st") = true →
      determineProductsFromContext q ps = (ps[0]?).toList) ∧
    (∀ (q : String) (ps : List Product), nameMatches q ps = [] →
      qHas q "first" = false → qHas q "1st" = false →
      (qHas q "second" || qHas q "2nd") = true →
      determineProductsFromContext q ps = (ps[1]?).toList) ∧
    (∀ (q : String) (ps : List Product), nameMatches q ps = [] →
      qHas q "first" = false → qHas q "1st" = false →
      qHas q "second" = false → qHas q "2nd" = false →
      (qHas q "third" || qHas q "3rd") = true →
      determineProductsFromContext q ps = (ps[2]?).toList) ∧
    (∀ (q : String) (ps : List Product), nameMatches q ps = [] →
      qHas q "first" = false → qHas q "1st" = false →
      qHas q "second" = false → qHas q "2nd" = false →
      qHas q "third" = false → qHas q "3rd" = false →
      qHas q "last" = true →
      determineProductsFromContext q ps = ps.getLast?.toList) ∧
    (∀ (q : String) (ps : List Product), nameMatches q ps = [] → noOrdinal q →
      qHas q "both" = true → 2 ≤ ps.length →
      determineProductsFromContext q ps = ps.take 2) ∧
    (∀ (q : String) (ps : List Product), nameMatches q ps = [] → noOrdinal q →
      qHas q "both" = true → qHas q "all" = false →
      qHas q "it" = false → qHas q "this" = false → qHas q "that" = false →
      ps.length < 2 →
      determineProductsFromContext q ps = []) := by
  refine ⟨rfl, rfl, rfl, rfl, ?_, ?_, ?_, ?_, ?_, ?_⟩
  · intro q ps hnm h1
    rw [← drop_take_one ps 0]
    simp [determineProductsFromContext, hnm, h1]
  · intro q ps hnm h1 h2 h3
    rw [← drop_take_one ps 1]
    simp [determineProductsFromContext, hnm, h1, h2, h3]
  · intro q ps hnm h1 h2 h3 h4 h5
    rw [← drop_take_one ps 2]
    simp [determineProductsFromContext, hnm, h1, h2, h3, h4, h5]
  · intro q ps hnm h1 h2 h3 h4 h5 h6 h7
    rw [← takeRight_one_eq_getLast ps]
    simp [determineProductsFromContext, hnm, h1, h2, h3, h4, h5, h6, h7]
  · intro q ps hnm hord hboth hlen
    obtain ⟨o1, o2, o3, o4, o5, o6, o7⟩ := hord
    simp [determineProductsFromContext, hnm, o1, o2, o3, o4, o5, o6, o7, hboth, hlen]
  · intro q ps hnm hord hboth hall hit hthis hthat hlen
    obtain ⟨o1, o2, o3, o4, o5, o6, o7⟩ := hord
    have h2le : ¬ 2 ≤ ps.length := by omega
    simp [determineProductsFromContext, hnm, o1, o2, o3, o4, o5, o6, o7, hboth,
          hall, hit, hthis, hthat, h2le]

/-- Witness for C1: the ordinal conjunct applied to a concrete query and
window in which no product name occurs. -/
theorem c1_referent_resolver_equations_witness :
    nameMatches "pick the 2nd" [prodA, prodB, prodC] = [] ∧
    determineProductsFromContext "pick the 2nd" [prodA, prodB, prodC] = [prodB] := by
  refine ⟨by decide, ?_⟩
  have h := c1_referent_resolver_equations.2.2.2.2.2.1 "pick the 2nd"
    [prodA, prodB, prodC] (by decide) (by decide) (by decide) (by decide)
  simpa using h

/-- Claim C2: whenever the query contains the exact (case-insensitive) name of
at least one windowed product, the Referent Resolver returns exactly the
name-matched products — a filter of the window, hence in window order (the
sublist conjunct) — regardless of any other words in the query. -/
theorem c2_name_match_precedence (q : String) (ps : List Product)
    (h : nameMatches q ps ≠ []) :
    determineProductsFromContext q ps = nameMatches q ps ∧
    (nameMatches q ps).Sublist ps := by
  constructor
  · have hne : (nameMatches q ps).isEmpty = false := by
      cases hm : nameMatches q ps with
      | nil => exact absurd hm h
      | cons a l => rfl
    simp [determineProductsFromContext, hne]
  · exact List.filter_sublist ps

/-- Witness for C2: a query naming Beta, also containing a stray generic "it"
("please"), resolves to the name match alone. -/
theorem c2_name_match_precedence_witness :
    nameMatches "add Beta to it please" [prodA, prodB] ≠ [] ∧
    determineProductsFromContext "add Beta to it please" [prodA, prodB] = [prodB] := by
  refine ⟨by decide, ?_⟩
  have h := (c2_name_match_precedence "add Beta to it please" [prodA, prodB] (by decide)).1
  simpa using h

/-- Claim C6: the Action Classifier yields exactly one of add/remove/none,
characterized by the two phrase-containment flags, and when a query matches
both phrase lists the classification is `add` (the add check runs first). -/
theorem c6_action_classifier_tiebreak :
    ∀ (w : List Product) (q : String),
      ((parseCartAction w q).action = ActionKind.add ∨
       (parseCartAction w q).action = ActionKind.remove ∨
       (parseCartAction w q).action = ActionKind.none) ∧
      ((parseCartAction w q).action = ActionKind.add ↔ isAddAction q = true) ∧
      ((parseCartAction w q).action = ActionKind.remove ↔
        (isAddAction q = false ∧ isRemoveAction q = true)) ∧
      ((parseCartAction w q).action = ActionKind.none ↔
        (isAddAction q = false ∧ isRemoveAction q = false)) ∧
      (isAddAction q = true → isRemoveAction q = true →
        (parseCartAction w q).action = ActionKind.add) := by
  intro w q
  cases ha : isAddAction q <;> cases hr : isRemoveAction q <;>
    simp [parseCartAction, ha, hr]

/-- Witness for C6: "add it and remove it" matches both phrase lists and is
classified `add`. -/
theorem c6_action_classifier_tiebreak_witness :
    (isAddAction "add it and remove it" = true ∧
     isRemoveAction "add it and remove it" = true) ∧
    (parseCartAction [] "add it and remove it").action = ActionKind.add :=
  ⟨⟨by decide, by decide⟩,
   (c6_action_classifier_tiebreak [] "add it and remove it").2.2.2.2
     (by decide) (by decide)⟩

/-- Claim C10: the Relevance Scorer ignores the user profile — any two
profiles give identical ordered output, because the body reads only the query,
the product fields, the pattern tables and the badge. -/
theorem c10_scorer_profile_independent :
    ∀ (catalog : List Product) (p1 p2 : UserProfile) (q : String),
      findRelevantProducts catalog p1 q = findRelevantProducts catalog p2 q := by
  intro catalog p1 p2 q
  rfl

/-- Claim C5: every returned ScoredProduct's score is at least the threshold
25, at most 3 entries are returned, the result is sorted by descending score,
and every equal-score fibre of the result is a prefix of the corresponding
fibre of the threshold-filtered catalog-ordered list — equal-score entries
appear in catalog order (stability of the sort). -/
theorem c5_relevance_scorer_bounds :
    ∀ (catalog : List Product) (profile : UserProfile) (q : String),
      (∀ sp ∈ findRelevantProducts catalog profile q, 25 ≤ sp.score) ∧
      (findRelevantProducts catalog profile q).length ≤ 3 ∧
      (findRelevantProducts catalog profile q).Pairwise
        (fun a b => b.score ≤ a.score) ∧
      (∀ s : Nat,
        (findRelevantProducts catalog profile q).filter (fun sp => sp.score == s) <+:
          (thresholdFiltered catalog q).filter (fun sp => sp.score == s)) := by
  intro catalog profile q
  refine ⟨?_, ?_, ?_, ?_⟩
  · intro sp hsp
    have h1 : sp ∈ sortByScoreDesc (thresholdFiltered catalog q) :=
      List.mem_of_mem_take hsp
    have h2 : sp ∈ thresholdFiltered catalog q := mem_of_mem_sortByScoreDesc h1
    have h3 := List.of_mem_filter h2
    exact of_decide_eq_true h3
  · exact List.length_take_le 3 _
  · exact List.Pairwise.sublist (List.take_sublist 3 _) (pairwise_sortByScoreDesc _)
  · intro s
    have h := filter_take_prefix (fun sp => sp.score == s)
      (sortByScoreDesc (thresholdFiltered catalog q)) 3
    rwa [filter_sortByScoreDesc] at h

/-- Witness for C5: the book query returns the first book with score 70 ≥ 25. -/
theorem c5_relevance_scorer_bounds_witness :
    (⟨bookX, 70⟩ : ScoredProduct) ∈
      findRelevantProducts bookCatalog emptyProfile "do you have any books?" ∧
    25 ≤ (70 : Nat) :=
  ⟨by decide,
   (c5_relevance_scorer_bounds bookCatalog emptyProfile "do you have any books?").1
     ⟨bookX, 70⟩ (by decide)⟩

/-- A classified `add` with a non-empty resolution takes the cart path. -/
theorem takesCartPath_of_add (st : AssistantState) (q : String)
    (ha : (parseCartAction st.lastSuggestedProducts q).action = ActionKind.add)
    (hp : (parseCartAction st.lastSuggestedProducts q).products ≠ []) :
    takesCartPath st q = true := by
  unfold takesCartPath
  rw [ha]
  simp [hp]

/-- A classified `remove` with a non-empty resolution takes the cart path. -/
theorem takesCartPath_of_remove (st : AssistantState) (q : String)
    (ha : (parseCartAction st.lastSuggestedProducts q).action = ActionKind.remove)
    (hp : (parseCartAction st.lastSuggestedProducts q).products ≠ []) :
    takesCartPath st q = true := by
  unfold takesCartPath
  rw [ha]
  simp [hp]

/-- Conversely, a taken cart path is an `add` or a `remove` with a non-empty
resolution. -/
theorem cartAction_cases (st : AssistantState) (q : String)
    (h : takesCartPath st q = true) :
    ((parseCartAction st.lastSuggestedProducts q).action = ActionKind.add ∧
      (parseCartAction st.lastSuggestedProducts q).products ≠ []) ∨
    ((parseCartAction st.lastSuggestedProducts q).action = ActionKind.remove ∧
      (parseCartAction st.lastSuggestedProducts q).products ≠ []) := by
  unfold takesCartPath at h
  rcases Bool.and_eq_true_iff.mp h with ⟨h1, h2⟩
  have hne : (parseCartAction st.lastSuggestedProducts q).action ≠ ActionKind.none :=
    of_decide_eq_true h1
  have hp : (parseCartAction st.lastSuggestedProducts q).products ≠ [] := by
    intro hnil
    rw [hnil] at h2
    simp at h2
  cases hact : (parseCartAction st.lastSuggestedProducts q).action with
  | add => exact Or.inl ⟨rfl, hp⟩
  | remove => exact Or.inr ⟨rfl, hp⟩
  | none => exact absurd hact hne

/-- Claim C3 (showing the divergence): on the `add` path with cart empty and a
single resolved product, `addItem` is invoked exactly once with that product,
the reply attaches no suggestions, no provider is called, the resulting cart
has one line — but the confirmation text reports "0 item(s)": the source reads
the captured pre-mutation `cart.items.length`, not the resulting cart size.  -/
theorem c3_cart_add_path_stale_count :
    (generateResponse [sneakerProd] ⟨[], [sneakerProd], emptyProfile, []⟩ "add it"
      (Except.ok "hi") (Except.ok "hi")).addCalls = [sneakerProd] ∧
    (generateResponse [sneakerProd] ⟨[], [sneakerProd], emptyProfile, []⟩ "add it"
      (Except.ok "hi") (Except.ok "hi")).cartItems = [⟨sneakerProd, 1⟩] ∧
    (generateResponse [sneakerProd] ⟨[], [sneakerProd], emptyProfile, []⟩ "add it"
      (Except.ok "hi") (Except.ok "hi")).products = [] ∧
    (generateResponse [sneakerProd] ⟨[], [sneakerProd], emptyProfile, []⟩ "add it"
      (Except.ok "hi") (Except.ok "hi")).showProducts = false ∧
    (generateResponse [sneakerProd] ⟨[], [sneakerProd], emptyProfile, []⟩ "add it"
      (Except.ok "hi") (Except.ok "hi")).primaryPrompt = Option.none ∧
    (generateResponse [sneakerProd] ⟨[], [sneakerProd], emptyProfile, []⟩ "add it"
      (Except.ok "hi") (Except.ok "hi")).secondaryPrompt = Option.none ∧
    (generateResponse [sneakerProd] ⟨[], [sneakerProd], emptyProfile, []⟩ "add it"
      (Except.ok "hi") (Except.ok "hi")).content =
      "Perfect! I\x27ve added Running Sneakers to your cart. You now have 0 item(s) in your cart." :=
  ⟨rfl, rfl, rfl, rfl, rfl, rfl, rfl⟩

/-- Counterexample for C4: when both providers fail, the apology is recorded
as an `assistant`-typed turn, not an `error`-typed one — the `error` type is
reserved for the unreachable outer handler in `handleSend`. -/
theorem c4_double_failure_assistant_turn :
    (handleSend [sneakerProd] emptyState "hello" (Except.error ()) (Except.error ())).messages =
      [⟨MsgType.user, "hello", Option.none, false⟩,
       ⟨MsgType.assistant, apologyText, Option.none, false⟩] ∧
    (generateResponse [sneakerProd] emptyState "hello" (Except.error ())
      (Except.error ())).secondaryPrompt.isSome = true ∧
    MsgType.assistant ≠ MsgType.error :=
  ⟨rfl, rfl, by decide⟩

/-- Claim C4 as amended: on the conversational path, when the primary provider
fails the secondary is invoked exactly once with the equivalent prompt (same
composed system prompt, same query); when both fail the turn yields the fixed
apology recorded as an assistant-typed turn, and the orchestrator returns
normally (no exception escapes). -/
theorem c4_provider_fallback (catalog : List Product) (st : AssistantState)
    (q : String) (sec : Except Unit String)
    (h : takesCartPath st q = false) :
    (generateResponse catalog st q (Except.error ()) sec).primaryPrompt =
      some (getSystemPrompt catalog st.cartItems st.userProfile (isAskingForProducts q)
        (buildConversationContext st.messages st.lastSuggestedProducts), q) ∧
    (generateResponse catalog st q (Except.error ()) sec).secondaryPrompt =
      (generateResponse catalog st q (Except.error ()) sec).primaryPrompt ∧
    (sec = Except.error () →
      (generateResponse catalog st q (Except.error ()) sec).content = apologyText ∧
      (generateResponse catalog st q (Except.error ()) sec).showProducts = false) ∧
    (handleSend catalog st q (Except.error ()) sec).messages =
      st.messages ++
        [⟨MsgType.user, q, Option.none, false⟩,
         ⟨MsgType.assistant, (generateResponse catalog st q (Except.error ()) sec).content,
          if (generateResponse catalog st q (Except.error ()) sec).showProducts then
            some (generateResponse catalog st q (Except.error ()) sec).products
          else Option.none,
          (generateResponse catalog st q (Except.error ()) sec).showProducts⟩] := by
  refine ⟨?_, ?_, ?_, rfl⟩
  · simp only [generateResponse]
    split
    · rename_i h1
      exact absurd (takesCartPath_of_add st q h1.1 h1.2) (by rw [h]; exact Bool.false_ne_true)
    · split
      · rename_i h1 h2
        exact absurd (takesCartPath_of_remove st q h2.1 h2.2)
          (by rw [h]; exact Bool.false_ne_true)
      · cases sec <;> rfl
  · simp only [generateResponse]
    split
    · rename_i h1
      exact absurd (takesCartPath_of_add st q h1.1 h1.2) (by rw [h]; exact Bool.false_ne_true)
    · split
      · rename_i h1 h2
        exact absurd (takesCartPath_of_remove st q h2.1 h2.2)
          (by rw [h]; exact Bool.false_ne_true)
      · cases sec <;> rfl
  · intro hsec
    subst hsec
    constructor
    · simp only [generateResponse]
      split
      · rename_i h1
        exact absurd (takesCartPath_of_add st q h1.1 h1.2) (by rw [h]; exact Bool.false_ne_true)
      · split
        · rename_i h1 h2
          exact absurd (takesCartPath_of_remove st q h2.1 h2.2)
            (by rw [h]; exact Bool.false_ne_true)
        · rfl
    · simp only [generateResponse]
      split
      · rename_i h1
        exact absurd (takesCartPath_of_add st q h1.1 h1.2) (by rw [h]; exact Bool.false_ne_true)
      · split
        · rename_i h1 h2
          exact absurd (takesCartPath_of_remove st q h2.1 h2.2)
            (by rw [h]; exact Bool.false_ne_true)
        · rfl

/-- Witness for C4: a conversational query on a fresh session with both
providers failing. -/
theorem c4_provider_fallback_witness :
    takesCartPath emptyState "hello" = false ∧
    (generateResponse [sneakerProd] emptyState "hello" (Except.error ())
      (Except.error ())).content = apologyText :=
  ⟨by decide,
   ((c4_provider_fallback [sneakerProd] emptyState "hello" (Except.error ())
      (by decide)).2.2.1 rfl).1⟩

/-- Claim C7: the referent window is overwritten only by a turn that shows a
new non-empty suggestion set (the disjunction), and in the concrete scenario —
turn 1 suggests the two books, turn 2 is purely conversational — turn 3's
"add it" still resolves to the first book and issues exactly one `addItem`. -/
theorem c7_last_suggested_persistence :
    (∀ (catalog : List Product) (st : AssistantState) (q : String)
       (p s : Except Unit String),
      (generateResponse catalog st q p s).lastSuggested = st.lastSuggestedProducts ∨
      ((generateResponse catalog st q p s).showProducts = true ∧
       (generateResponse catalog st q p s).lastSuggested =
         (generateResponse catalog st q p s).products ∧
       (generateResponse catalog st q p s).lastSuggested ≠ [])) ∧
    (handleSend bookCatalog emptyState "do you have any books?" (Except.ok "sure")
        (Except.ok "sure")).lastSuggestedProducts = [bookX, bookY] ∧
    (handleSend bookCatalog
        (handleSend bookCatalog emptyState "do you have any books?" (Except.ok "sure")
          (Except.ok "sure"))
        "thanks" (Except.ok "np") (Except.ok "np")).lastSuggestedProducts =
      [bookX, bookY] ∧
    (generateResponse bookCatalog
        (handleSend bookCatalog
          (handleSend bookCatalog emptyState "do you have any books?" (Except.ok "sure")
            (Except.ok "sure"))
          "thanks" (Except.ok "np") (Except.ok "np"))
        "add it" (Except.ok "z") (Except.ok "z")).addCalls = [bookX] := by
  refine ⟨?_, rfl, rfl, rfl⟩
  intro catalog st q p s
  simp only [generateResponse]
  split
  · exact Or.inl rfl
  · split
    · exact Or.inl rfl
    · cases p with
      | ok text =>
        dsimp only
        split
        · split
          · rename_i hcond2
            refine Or.inr ⟨hcond2, rfl, ?_⟩
            intro hnil
            rw [hnil] at hcond2
            simp at hcond2
          · exact Or.inl rfl
        · exact Or.inl (by simp)
      | error e =>
        cases s with
        | ok text =>
          dsimp only
          split
          · split
            · rename_i hcond2
              refine Or.inr ⟨hcond2, rfl, ?_⟩
              intro hnil
              rw [hnil] at hcond2
              simp at hcond2
            · exact Or.inl rfl
          · exact Or.inl (by simp)
        | error e2 => exact Or.inl rfl

/-- The searches window after any turn is the last 10 of the appended list,
in every branch of the orchestrator. -/
theorem genResponse_searches (catalog : List Product) (st : AssistantState)
    (q : String) (p s : Except Unit String) :
    (generateResponse catalog st q p s).searches =
      takeRight 10 (st.userProfile.searches ++ [q]) := by
  simp only [generateResponse]
  split
  · rfl
  · split
    · rfl
    · cases p with
      | ok t => rfl
      | error e => cases s <;> rfl

/-- Claim C8: after every turn the recent-searches window holds at most 10
entries and the interests window at most 5 distinct categories; both are
suffixes of the chronologically appended lists, so the entries dropped are the
oldest (FIFO eviction keeping the most recent). -/
theorem c8_profile_windows_bounded (catalog : List Product) (st : AssistantState)
    (q : String) (p s : Except Unit String)
    (h1 : st.userProfile.interests.length ≤ 5)
    (h2 : st.userProfile.interests.Nodup) :
    (handleSend catalog st q p s).userProfile.searches.length ≤ 10 ∧
    (handleSend catalog st q p s).userProfile.searches <:+
      (st.userProfile.searches ++ [q]) ∧
    (handleSend catalog st q p s).userProfile.interests.length ≤ 5 ∧
    (handleSend catalog st q p s).userProfile.interests.Nodup ∧
    ((handleSend catalog st q p s).userProfile.interests = st.userProfile.interests ∨
     (handleSend catalog st q p s).userProfile.interests <:+
       dedupFirst (st.userProfile.interests ++
         dedupFirst ((generateResponse catalog st q p s).products.map
           (fun pr => pr.category)))) := by
  have hs : (handleSend catalog st q p s).userProfile.searches =
      takeRight 10 (st.userProfile.searches ++ [q]) := by
    show (generateResponse catalog st q p s).searches = _
    exact genResponse_searches catalog st q p s
  have hi : (handleSend catalog st q p s).userProfile.interests =
      (if (generateResponse catalog st q p s).showProducts &&
          !(generateResponse catalog st q p s).products.isEmpty then
        takeRight 5 (dedupFirst (st.userProfile.interests ++
          dedupFirst ((generateResponse catalog st q p s).products.map
            (fun pr => pr.category))))
      else st.userProfile.interests) := rfl
  refine ⟨?_, ?_, ?_, ?_, ?_⟩
  · rw [hs]
    exact takeRight_length_le _ _
  · rw [hs]
    exact takeRight_suffix _ _
  · rw [hi]
    split
    · exact takeRight_length_le _ _
    · exact h1
  · rw [hi]
    split
    · exact List.Nodup.sublist (List.IsSuffix.sublist (takeRight_suffix _ _))
        (dedupFirst_nodup _)
    · exact h2
  · rw [hi]
    split
    · exact Or.inr (takeRight_suffix _ _)
    · exact Or.inl rfl

/-- Witness for C8: the book-query turn on a fresh session. -/
theorem c8_profile_windows_bounded_witness :
    (emptyState.userProfile.interests.length ≤ 5 ∧
     emptyState.userProfile.interests.Nodup) ∧
    (handleSend bookCatalog emptyState "do you have any books?" (Except.ok "sure")
      (Except.ok "sure")).userProfile.searches.length ≤ 10 :=
  ⟨⟨by decide, by decide⟩,
   (c8_profile_windows_bounded bookCatalog emptyState "do you have any books?"
     (Except.ok "sure") (Except.ok "sure") (by decide) (by decide)).1⟩

/-- Counterexample for C9: a query classified `add` whose referent window is
empty falls through to the conversational path, and because the heuristic
judges it product-seeking the composed prompt does embed the catalog dump —
refuting "the dump appears only when the classifier yields `none`". -/
theorem c9_catalog_dump_on_add_action :
    (parseCartAction ([] : List Product) "add it do you have books").action =
      ActionKind.add ∧
    ((generateResponse [bookX] ⟨[], [], emptyProfile, []⟩ "add it do you have books"
        (Except.ok "r") (Except.ok "r")).primaryPrompt.map
      (fun pr => pr.1.catalogDump.isSome)) = some true :=
  ⟨rfl, rfl⟩

/-- Claim C9 as amended: the catalog dump is embedded iff the turn did not
take the cart-mutation short circuit (classifier `none`, or classifier
`add`/`remove` with an empty resolution) and the product-seeking heuristic
holds; turns on the cart path compose no prompt at all. -/
theorem c9_catalog_dump_condition (catalog : List Product) (st : AssistantState)
    (q : String) (p s : Except Unit String) :
    (takesCartPath st q = true →
      (generateResponse catalog st q p s).primaryPrompt = Option.none ∧
      (generateResponse catalog st q p s).secondaryPrompt = Option.none) ∧
    (takesCartPath st q = false →
      (generateResponse catalog st q p s).primaryPrompt =
        some (getSystemPrompt catalog st.cartItems st.userProfile
          (isAskingForProducts q)
          (buildConversationContext st.messages st.lastSuggestedProducts), q)) ∧
    (∀ (cat : List Product) (items : List CartItem) (prof : UserProfile)
       (b : Bool) (c : String),
      (getSystemPrompt cat items prof b c).catalogDump.isSome = b) := by
  refine ⟨?_, ?_, ?_⟩
  · intro h
    rcases cartAction_cases st q h with ⟨ha, hp⟩ | ⟨ha, hp⟩
    · constructor <;> (simp only [generateResponse]; rw [if_pos ⟨ha, hp⟩])
    · have hne : ¬((parseCartAction st.lastSuggestedProducts q).action =
          ActionKind.add ∧
          (parseCartAction st.lastSuggestedProducts q).products ≠ []) := by
        intro hc
        rw [ha] at hc
        exact absurd hc.1 (by decide)
      constructor <;>
        (simp only [generateResponse]; rw [if_neg hne, if_pos ⟨ha, hp⟩])
  · intro h
    simp only [generateResponse]
    split
    · rename_i hc
      exact absurd (takesCartPath_of_add st q hc.1 hc.2)
        (by rw [h]; exact Bool.false_ne_true)
    · split
      · rename_i hc1 hc2
        exact absurd (takesCartPath_of_remove st q hc2.1 hc2.2)
          (by rw [h]; exact Bool.false_ne_true)
      · cases p with
        | ok t => rfl
        | error e => cases s <;> rfl
  · intro cat items prof b c
    cases b <;> rfl

/-- Witness for C9: a conversational, non-product-seeking query composes a
prompt whose dump flag is off. -/
theorem c9_catalog_dump_condition_witness :
    takesCartPath emptyState "hello" = false ∧
    (generateResponse [bookX] emptyState "hello" (Except.ok "r")
      (Except.ok "r")).primaryPrompt =
      some (getSystemPrompt [bookX] emptyState.cartItems emptyState.userProfile
        (isAskingForProducts "hello")
        (buildConversationContext emptyState.messages
          emptyState.lastSuggestedProducts), "hello") :=
  ⟨by decide,
   (c9_catalog_dump_condition [bookX] emptyState "hello" (Except.ok "r")
     (Except.ok "r")).2.1 (by decide)⟩

end Luxe
